import Mathlib

/-!
Shallow embedding of the disk shared-resources audit scripts
(`disk_resources.py`, `disk_resources_by_email.py`, `listusers.py`).

Python exceptions are modelled by an explicit error type: the scripts
discriminate exceptions only by "is it a `DiskClientError` or not", so the
model keeps that distinction plus the `IndexError` raised by `xs[0]` on an
empty list.  The CSV writer is modelled as an explicit list of rows threaded
through the loops (the scripts write each row immediately, so rows written
before an exception stay written).  The collaborator `DiskAdminClient` is an
oracle: a structure of functions returning `Except`.
-/

namespace DiskSharedResources

/-- Python exception model: `diskClientError` is the `DiskClientError` class
imported from the collaborator library (the spec's "lookup error" category),
`indexError` is `IndexError` from list indexing, and `otherError` stands for
any other exception (e.g. a transport-level error), tagged with its type name
and message. -/
inductive PyError where
  | diskClientError : String → PyError
  | indexError : String → PyError
  | otherError : String → String → PyError
deriving DecidableEq

/-- The discrimination the scripts actually perform: `except DiskClientError`. -/
def PyError.isDiskClientError : PyError → Bool
  | .diskClientError _ => true
  | _ => false

/-- Python truthiness of an `Optional[str]`: `None` and the empty string are
falsy, any other string is truthy. -/
def pyTruthy : Option String → Bool
  | none => false
  | some s => !s.isEmpty

/-- Python `xs[0]` on a list of strings: raises `IndexError` when empty. -/
def pyGetItem0 (xs : List String) : Except PyError String :=
  match xs with
  | [] => .error (.indexError "list index out of range")
  | x :: _ => .ok x

/-- Embedding of `y360_orglib.disk.models.ResourceShort` as used by the
scripts: type, name, path and the optional `public_hash`. -/
structure ResourceShort where
  type : String
  name : String
  path : String
  public_hash : Option String
deriving DecidableEq

/-- Embedding of the polymorphic ACL entry: `MacroAccess` (class-based grant)
or `UserAccess` (grant to a specific user).  `user_id` is already the string
the scripts obtain via `str(access.user_id)`; `org_id` is the optional
organization identifier tested for truthiness by `not access.org_id`. -/
inductive PublicAccess where
  | macroAccess (macros : List String) (rights : List String)
  | userAccess (user_id : String) (access_type : String) (rights : List String)
      (org_id : Option String)
deriving DecidableEq

/-- Result of a public-settings lookup: the list of ACL entries. -/
structure PublicSettings where
  public_accesses : List PublicAccess
deriving DecidableEq

/-- Oracle for the storage admin collaborator: each call either returns a
value or raises a `PyError`. -/
structure DiskAdminClient where
  get_user_public_resources : String → Except PyError (List ResourceShort)
  get_public_settings_by_path : String → String → Except PyError PublicSettings
  get_public_settings_by_key : String → Except PyError PublicSettings

/-- Python `dict[str, str]` as an insertion-ordered association list. -/
abbrev Dict := List (String × String)

/-- Python `d[k] = v`: overwrite in place if the key exists, else append. -/
def dictUpsert (d : Dict) (k v : String) : Dict :=
  match d with
  | [] => [(k, v)]
  | (k0, v0) :: rest => if k0 = k then (k0, v) :: rest else (k0, v0) :: dictUpsert rest k v

/-- Python `d.get(k, dflt)`. -/
def dictGet (d : Dict) (k dflt : String) : String :=
  match d with
  | [] => dflt
  | (k0, v0) :: rest => if k0 = k then v0 else dictGet rest k dflt

/-- Python `d.get(k)` (default `None`). -/
def dictGetOpt (d : Dict) (k : String) : Option String :=
  match d with
  | [] => none
  | (k0, v0) :: rest => if k0 = k then some v0 else dictGetOpt rest k

/-- The keys of a dict. -/
def dictKeys (d : Dict) : List String := d.map (fun p => p.1)

/-- One row of `disk_report.csv` / `disk_report_by_email.csv`, in the fixed
`CSV_HEADERS` schema. -/
structure CsvRow where
  email : String
  path : String
  access_type : String
  rights : String
  user_id : String
  shared_email : String
  external_user : Bool
deriving DecidableEq

/-- Embedding of `process_access`: builds the row that `w.writerow` appends. -/
def process_access (user_email resource_path access_type rights user_id
    shared_email : String) (external_user : Bool) : CsvRow :=
  { email := user_email
    path := resource_path
    access_type := access_type
    rights := rights
    user_id := user_id
    shared_email := shared_email
    external_user := external_user }

/-- Identity resolution as performed in the grant loop:
`users_lookup.get(str(access.user_id), '')`. -/
def resolveEmail (index : Dict) (internalId : String) : String :=
  dictGet index internalId ""

/-- The body of the `for access in accesses` loop for one ACL entry: returns
`none` when the entry is skipped (an owner `UserAccess`), `some row` when a
row is written, and an error when `macros[0]` or `rights[0]` raises.  Python
evaluates `access.macros[0]` before `access.rights[0]` in the macro branch,
and all arguments of `process_access` before writing, so an error leaves no
row. -/
def normalizeAccess (users_lookup : Dict) (user_email resource_path : String) :
    PublicAccess → Except PyError (Option CsvRow)
  | .macroAccess macros rights =>
      match pyGetItem0 macros with
      | .error e => .error e
      | .ok access_type =>
        match pyGetItem0 rights with
        | .error e => .error e
        | .ok r0 =>
          .ok (some (process_access user_email resource_path access_type r0 "" "" false))
  | .userAccess user_id access_type rights org_id =>
      if access_type = "owner" then
        .ok none
      else
        match pyGetItem0 rights with
        | .error e => .error e
        | .ok r0 =>
          .ok (some (process_access user_email resource_path access_type r0 user_id
            (resolveEmail users_lookup user_id) (!pyTruthy org_id)))

/-- The `for access in accesses` loop with the streaming writer `w`: rows are
appended one by one; an exception stops the loop but keeps the rows already
written. -/
def writeAccesses (users_lookup : Dict) (user_email resource_path : String) :
    List PublicAccess → List CsvRow → List CsvRow × Option PyError
  | [], w => (w, none)
  | a :: rest, w =>
    match normalizeAccess users_lookup user_email resource_path a with
    | .error e => (w, some e)
    | .ok none => writeAccesses users_lookup user_email resource_path rest w
    | .ok (some row) => writeAccesses users_lookup user_email resource_path rest (w ++ [row])

/-- The inner `try`: primary lookup by `(user_id, resource.path)`; on
`DiskClientError`, fall back to the lookup by `resource.public_hash` when the
hash is truthy, else `continue` (modelled as `.ok none`).  A non-client error
from the primary lookup, or any error from the fallback, propagates. -/
def resolveSettings (client : DiskAdminClient) (user_id : String)
    (resource : ResourceShort) : Except PyError (Option PublicSettings) :=
  match client.get_public_settings_by_path user_id resource.path with
  | .ok res => .ok (some res)
  | .error e =>
    if e.isDiskClientError then
      if pyTruthy resource.public_hash then
        match client.get_public_settings_by_key (resource.public_hash.getD "") with
        | .ok res => .ok (some res)
        | .error e2 => .error e2
      else .ok none
    else .error e

/-- One iteration of `for resource in resource_items`, wrapped in the outer
`except DiskClientError` which logs and moves on: a `DiskClientError` raised
anywhere in the body is swallowed, any other error propagates. -/
def processResource (client : DiskAdminClient) (users_lookup : Dict)
    (user_id user_email : String) (resource : ResourceShort) (w : List CsvRow) :
    List CsvRow × Option PyError :=
  match resolveSettings client user_id resource with
  | .ok none => (w, none)
  | .error e => if e.isDiskClientError then (w, none) else (w, some e)
  | .ok (some res) =>
    match writeAccesses users_lookup user_email resource.path res.public_accesses w with
    | (w2, none) => (w2, none)
    | (w2, some e) => if e.isDiskClientError then (w2, none) else (w2, some e)

/-- The `for resource in resource_items` loop: an uncaught error aborts the
remaining resources (rows already written stay). -/
def processResources (client : DiskAdminClient) (users_lookup : Dict)
    (user_id user_email : String) :
    List ResourceShort → List CsvRow → List CsvRow × Option PyError
  | [], w => (w, none)
  | r :: rest, w =>
    match processResource client users_lookup user_id user_email r w with
    | (w2, none) => processResources client users_lookup user_id user_email rest w2
    | (w2, some e) => (w2, some e)

/-- Embedding of `get_user_shared_resources`: enumerate the subject's public
resources (an error here propagates to the caller), then process each. -/
def get_user_shared_resources (client : DiskAdminClient) (users_lookup : Dict)
    (user_id user_email : String) (w : List CsvRow) : List CsvRow × Option PyError :=
  match client.get_user_public_resources user_id with
  | .error e => (w, some e)
  | .ok resource_items => processResources client users_lookup user_id user_email resource_items w

/-- A row of the users CSV as consumed by `disk_resources.py`: only the `ID`
and `Email` columns are read (via `row.get(..., '')`, so a missing column is
the empty string). -/
structure UserRow where
  ID : String
  Email : String
deriving DecidableEq

/-- The constant `USER_ID_PREFIX_FILTER = '113'`. -/
def USER_ID_PREFIX_FILTER : String := "113"

/-- The constant `VALID_USER_ID_LENGTH = 16`. -/
def VALID_USER_ID_LENGTH : Nat := 16

/-- The lookup built in `main` of `disk_resources.py`:
`{user.get('ID',''): user.get('Email','') for user in users_list}`. -/
def buildUsersLookup (users_list : List UserRow) : Dict :=
  users_list.foldl (fun d u => dictUpsert d u.ID u.Email) []

/-- The `for user in users_list` loop of `main` in `disk_resources.py`:
eligibility is `user_id[:3] == USER_ID_PREFIX_FILTER`; an eligible subject is
fetched, `processed` is incremented only when no exception escaped the fetch
(both `except DiskClientError` and `except Exception` swallow the error and
move on). -/
def mainLoop (client : DiskAdminClient) (users_lookup : Dict) :
    List UserRow → List CsvRow → Nat → List CsvRow × Nat
  | [], w, processed => (w, processed)
  | u :: rest, w, processed =>
    if u.ID.take 3 == USER_ID_PREFIX_FILTER then
      match get_user_shared_resources client users_lookup u.ID u.Email w with
      | (w2, none) => mainLoop client users_lookup rest w2 (processed + 1)
      | (w2, some _) => mainLoop client users_lookup rest w2 processed
    else
      mainLoop client users_lookup rest w processed

/-- Embedding of `main` in `disk_resources.py`: returns the rows written and
the `processed` count. -/
def disk_resources_main (client : DiskAdminClient) (users_list : List UserRow) :
    List CsvRow × Nat :=
  mainLoop client (buildUsersLookup users_list) users_list [] 0

/-- Embedding of `read_users_csv`: keep a row only when its `ID` value is
non-empty and has exactly `VALID_USER_ID_LENGTH` characters. -/
def read_users_csv (rows : List UserRow) : List UserRow :=
  rows.filter (fun r => !r.ID.isEmpty && r.ID.length == VALID_USER_ID_LENGTH)

/-- One entry of the directory listing as used by `load_all_users_lookup`:
`uid` is already `str(org_user.uid)`. -/
structure OrgUser where
  uid : String
  email : String
deriving DecidableEq

/-- Embedding of `load_all_users_lookup` in `disk_resources_by_email.py`:
builds `users_lookup` (id → email) and `email_to_id` in one pass, the later
entry overwriting on a duplicate key. -/
def load_all_users_lookup (org_users : List OrgUser) : Dict × Dict :=
  org_users.foldl
    (fun p u => (dictUpsert p.1 u.uid u.email, dictUpsert p.2 u.email u.uid)) ([], [])

/-- The `for email in email_list` loop of `main` in
`disk_resources_by_email.py`: resolve the email to an id (`not_found` when
the result is falsy), check the prefix AND length, fetch when eligible, and
increment `processed` only when no exception escaped the fetch. -/
def byEmailLoop (client : DiskAdminClient) (users_lookup email_to_id : Dict) :
    List String → List CsvRow → Nat → Nat → List CsvRow × Nat × Nat
  | [], w, processed, not_found => (w, processed, not_found)
  | email :: rest, w, processed, not_found =>
    let uidOpt := dictGetOpt email_to_id email
    if pyTruthy uidOpt then
      let user_id := uidOpt.getD ""
      if user_id.take 3 == USER_ID_PREFIX_FILTER && user_id.length == VALID_USER_ID_LENGTH then
        match get_user_shared_resources client users_lookup user_id email w with
        | (w2, none) => byEmailLoop client users_lookup email_to_id rest w2 (processed + 1) not_found
        | (w2, some _) => byEmailLoop client users_lookup email_to_id rest w2 processed not_found
      else
        byEmailLoop client users_lookup email_to_id rest w processed not_found
    else
      byEmailLoop client users_lookup email_to_id rest w processed (not_found + 1)

/-- Embedding of `main` in `disk_resources_by_email.py`: returns the rows
written, the `processed` count and the `not_found` count. -/
def disk_resources_by_email_main (client : DiskAdminClient) (org_users : List OrgUser)
    (email_list : List String) : List CsvRow × Nat × Nat :=
  let lookups := load_all_users_lookup org_users
  byEmailLoop client lookups.1 lookups.2 email_list [] 0 0

/-! ### Pure characterizations of the streaming loops

Each loop threads the writer state `w`; the definitions below give the rows
each loop level emits and the error escaping it as pure functions of the
inputs, and the theorems further down show that a loop call equals
`w ++ rows` paired with that error.  These make ordering and counting facts
statable. -/

/-- Rows emitted by the grant loop for one resource, in grant order, cut at
the first raising grant. -/
def grantRows (users_lookup : Dict) (user_email resource_path : String) :
    List PublicAccess → List CsvRow
  | [] => []
  | a :: rest =>
    match normalizeAccess users_lookup user_email resource_path a with
    | .error _ => []
    | .ok none => grantRows users_lookup user_email resource_path rest
    | .ok (some row) => row :: grantRows users_lookup user_email resource_path rest

/-- The first error raised by the grant loop, if any. -/
def grantErr (users_lookup : Dict) (user_email resource_path : String) :
    List PublicAccess → Option PyError
  | [] => none
  | a :: rest =>
    match normalizeAccess users_lookup user_email resource_path a with
    | .error e => some e
    | .ok _ => grantErr users_lookup user_email resource_path rest

/-- Rows emitted for one resource. -/
def resourceRows (client : DiskAdminClient) (users_lookup : Dict)
    (user_id user_email : String) (r : ResourceShort) : List CsvRow :=
  match resolveSettings client user_id r with
  | .ok none => []
  | .error _ => []
  | .ok (some res) => grantRows users_lookup user_email r.path res.public_accesses

/-- The error escaping one resource iteration, if any (a `DiskClientError`
never escapes: the outer `except` swallows it). -/
def resourceErr (client : DiskAdminClient) (users_lookup : Dict)
    (user_id user_email : String) (r : ResourceShort) : Option PyError :=
  match resolveSettings client user_id r with
  | .ok none => none
  | .error e => if e.isDiskClientError then none else some e
  | .ok (some res) =>
    match grantErr users_lookup user_email r.path res.public_accesses with
    | none => none
    | some e => if e.isDiskClientError then none else some e

/-- Rows emitted for a subject's resource list, resource by resource in
enumeration order, cut after the first resource whose error escapes. -/
def subjectRows (client : DiskAdminClient) (users_lookup : Dict)
    (user_id user_email : String) : List ResourceShort → List CsvRow
  | [] => []
  | r :: rest =>
    match resourceErr client users_lookup user_id user_email r with
    | none => resourceRows client users_lookup user_id user_email r ++
        subjectRows client users_lookup user_id user_email rest
    | some _ => resourceRows client users_lookup user_id user_email r

/-- The first error escaping the resource loop, if any. -/
def subjectErr (client : DiskAdminClient) (users_lookup : Dict)
    (user_id user_email : String) : List ResourceShort → Option PyError
  | [] => none
  | r :: rest =>
    match resourceErr client users_lookup user_id user_email r with
    | none => subjectErr client users_lookup user_id user_email rest
    | some e => some e

/-- Rows emitted for one subject (empty when resource enumeration itself
raises). -/
def userRows (client : DiskAdminClient) (users_lookup : Dict)
    (user_id user_email : String) : List CsvRow :=
  match client.get_user_public_resources user_id with
  | .error _ => []
  | .ok items => subjectRows client users_lookup user_id user_email items

/-- The error escaping `get_user_shared_resources` for one subject, if any. -/
def userErr (client : DiskAdminClient) (users_lookup : Dict)
    (user_id user_email : String) : Option PyError :=
  match client.get_user_public_resources user_id with
  | .error e => some e
  | .ok items => subjectErr client users_lookup user_id user_email items

/-- Rows written by the whole run of `disk_resources.py`, subject by subject
in input-list order. -/
def runRows (client : DiskAdminClient) (users_lookup : Dict) : List UserRow → List CsvRow
  | [] => []
  | u :: rest =>
    (if u.ID.take 3 == USER_ID_PREFIX_FILTER
      then userRows client users_lookup u.ID u.Email else []) ++
      runRows client users_lookup rest

/-- The predicate of a successfully processed subject in `disk_resources.py`:
eligible (prefix check) and no error escaped its fetch. -/
def subjectCounted (client : DiskAdminClient) (users_lookup : Dict) (u : UserRow) : Bool :=
  (u.ID.take 3 == USER_ID_PREFIX_FILTER) &&
    (userErr client users_lookup u.ID u.Email).isNone

/-- True when an `Except` value is a success, i.e. no exception was raised. -/
def exceptIsOk {ε α : Type} : Except ε α → Bool
  | .ok _ => true
  | .error _ => false

/-- Well-formedness of an ACL entry as the normalizer needs it: a
`MacroAccess` carries at least one macro label and one right level, a
non-owner `UserAccess` carries at least one right level (owner entries are
skipped before any indexing). -/
def grantWellFormed : PublicAccess → Bool
  | .macroAccess macros rights => !macros.isEmpty && !rights.isEmpty
  | .userAccess _ access_type rights _ => access_type == "owner" || !rights.isEmpty

/-! ### Concrete scenarios

Closed inputs used to evaluate the embedding at specific points: tiny
clients whose collaborator calls return fixed answers. -/

/-- A `DiskClientError` as raised by a failed settings lookup. -/
def lookupNotFound : PyError := .diskClientError "404 resource not found"

/-- An exception that is not a `DiskClientError` (a transport failure). -/
def transportError : PyError := .otherError "ConnectTimeout" "connection timed out"

/-- A subject whose id has the organization prefix class but only 3 of the 16
required characters. -/
def shortIdUser : UserRow := { ID := "113", Email := "short@example.com" }

/-- A subject with a fully eligible 16-character id. -/
def eligibleUser : UserRow := { ID := "1130000000000001", Email := "a@example.com" }

/-- A second fully eligible subject. -/
def eligibleUser2 : UserRow := { ID := "1130000000000002", Email := "b@example.com" }

/-- A shared folder carrying a public hash. -/
def hashedResource : ResourceShort :=
  { type := "dir", name := "shared", path := "/disk/shared", public_hash := some "hash1" }

/-- A shared folder without a public hash. -/
def unhashedResource : ResourceShort :=
  { type := "dir", name := "private", path := "/disk/private", public_hash := none }

/-- A client whose every resource resolves to one macro grant
(`organization` / `read`). -/
def macroGrantClient : DiskAdminClient :=
  { get_user_public_resources := fun _ => .ok [hashedResource]
    get_public_settings_by_path := fun _ _ =>
      .ok { public_accesses := [.macroAccess ["organization"] ["read"]] }
    get_public_settings_by_key := fun _ => .ok { public_accesses := [] } }

/-- A client whose primary settings lookup raises a transport-level error
(not a `DiskClientError`); its fallback lookup would succeed with one macro
grant, so any row in the output would prove the fallback was consulted. -/
def transportFailClient : DiskAdminClient :=
  { get_user_public_resources := fun _ => .ok [hashedResource]
    get_public_settings_by_path := fun _ _ => .error transportError
    get_public_settings_by_key := fun _ =>
      .ok { public_accesses := [.macroAccess ["organization"] ["read"]] } }

/-- A client whose primary and fallback settings lookups both raise a
`DiskClientError`. -/
def bothLookupsFailClient : DiskAdminClient :=
  { get_user_public_resources := fun _ => .ok [hashedResource]
    get_public_settings_by_path := fun _ _ => .error lookupNotFound
    get_public_settings_by_key := fun _ => .error lookupNotFound }

/-- A client enumerating a resource without a public hash whose primary
settings lookup raises a `DiskClientError`, followed by a resource that
resolves to one macro grant. -/
def noHashFailClient : DiskAdminClient :=
  { get_user_public_resources := fun _ => .ok [unhashedResource, hashedResource]
    get_public_settings_by_path := fun _ p =>
      if p == "/disk/private" then .error lookupNotFound
      else .ok { public_accesses := [.macroAccess ["organization"] ["read"]] }
    get_public_settings_by_key := fun _ => .ok { public_accesses := [] } }

/-- A grant whose rights list is empty: `access.rights[0]` raises. -/
def emptyRightsGrant : PublicAccess := .userAccess "u77" "read-write" [] none

/-- A client that serves `eligibleUser` one resource carrying the
empty-rights grant and serves every other subject no resources at all. -/
def emptyRightsClient : DiskAdminClient :=
  { get_user_public_resources := fun uid =>
      if uid == eligibleUser.ID then .ok [hashedResource] else .ok []
    get_public_settings_by_path := fun _ _ =>
      .ok { public_accesses := [emptyRightsGrant] }
    get_public_settings_by_key := fun _ => .ok { public_accesses := [] } }

/-! ### Loop characterization theorems -/

theorem writeAccesses_eq (users_lookup : Dict) (ue rp : String)
    (accesses : List PublicAccess) (w : List CsvRow) :
    writeAccesses users_lookup ue rp accesses w =
      (w ++ grantRows users_lookup ue rp accesses, grantErr users_lookup ue rp accesses) := by
  induction accesses generalizing w with
  | nil => simp [writeAccesses, grantRows, grantErr]
  | cons a rest ih =>
    cases h : normalizeAccess users_lookup ue rp a with
    | error e => simp [writeAccesses, grantRows, grantErr, h]
    | ok o =>
      cases o with
      | none => simp [writeAccesses, grantRows, grantErr, h, ih]
      | some row => simp [writeAccesses, grantRows, grantErr, h, ih]

theorem processResource_eq (client : DiskAdminClient) (users_lookup : Dict)
    (uid ue : String) (r : ResourceShort) (w : List CsvRow) :
    processResource client users_lookup uid ue r w =
      (w ++ resourceRows client users_lookup uid ue r,
        resourceErr client users_lookup uid ue r) := by
  unfold processResource resourceRows resourceErr
  cases hs : resolveSettings client uid r with
  | error e => cases he : e.isDiskClientError <;> simp [he]
  | ok o =>
    cases o with
    | none => simp
    | some res =>
      simp only [writeAccesses_eq]
      cases hg : grantErr users_lookup ue r.path res.public_accesses with
      | none => simp
      | some e => cases he : e.isDiskClientError <;> simp [he]

theorem processResources_eq (client : DiskAdminClient) (users_lookup : Dict)
    (uid ue : String) (rs : List ResourceShort) (w : List CsvRow) :
    processResources client users_lookup uid ue rs w =
      (w ++ subjectRows client users_lookup uid ue rs,
        subjectErr client users_lookup uid ue rs) := by
  induction rs generalizing w with
  | nil => simp [processResources, subjectRows, subjectErr]
  | cons r rest ih =>
    rw [processResources, processResource_eq]
    cases h : resourceErr client users_lookup uid ue r with
    | none => simp [subjectRows, subjectErr, h, ih]
    | some e => simp [subjectRows, subjectErr, h]

theorem get_user_shared_resources_eq (client : DiskAdminClient) (users_lookup : Dict)
    (uid ue : String) (w : List CsvRow) :
    get_user_shared_resources client users_lookup uid ue w =
      (w ++ userRows client users_lookup uid ue, userErr client users_lookup uid ue) := by
  unfold get_user_shared_resources userRows userErr
  cases client.get_user_public_resources uid with
  | error e => simp
  | ok items => simp only [processResources_eq]

theorem mainLoop_cons (client : DiskAdminClient) (users_lookup : Dict) (u : UserRow)
    (rest : List UserRow) (w : List CsvRow) (p : Nat) :
    mainLoop client users_lookup (u :: rest) w p =
      if u.ID.take 3 == USER_ID_PREFIX_FILTER then
        match get_user_shared_resources client users_lookup u.ID u.Email w with
        | (w2, none) => mainLoop client users_lookup rest w2 (p + 1)
        | (w2, some _) => mainLoop client users_lookup rest w2 p
      else mainLoop client users_lookup rest w p := rfl

theorem mainLoop_eq (client : DiskAdminClient) (users_lookup : Dict)
    (users : List UserRow) (w : List CsvRow) (p : Nat) :
    mainLoop client users_lookup users w p =
      (w ++ runRows client users_lookup users,
        p + users.countP (subjectCounted client users_lookup)) := by
  induction users generalizing w p with
  | nil => simp [mainLoop, runRows]
  | cons u rest ih =>
    rw [mainLoop_cons]
    by_cases hpre : (u.ID.take 3 == USER_ID_PREFIX_FILTER) = true
    · rw [if_pos hpre, get_user_shared_resources_eq]
      cases herr : userErr client users_lookup u.ID u.Email with
      | none =>
        simp only [ih, runRows, subjectCounted, hpre, herr, if_true, Option.isNone_none,
          Bool.and_true, List.countP_cons, Prod.mk.injEq]
        exact ⟨by simp, by omega⟩
      | some e =>
        simp only [ih, runRows, subjectCounted, hpre, herr, if_true, Option.isNone_some,
          Bool.and_false, Bool.false_eq_true, if_false, List.countP_cons, Prod.mk.injEq]
        exact ⟨by simp, by omega⟩
    · rw [if_neg hpre]
      have hpre2 : (u.ID.take 3 == USER_ID_PREFIX_FILTER) = false := by
        simpa using hpre
      simp only [ih, runRows, subjectCounted, hpre2, Bool.false_eq_true, if_false,
        Bool.false_and, List.countP_cons, List.nil_append, Prod.mk.injEq]
      exact ⟨by simp, by omega⟩

/-! ### Step lemmas -/

theorem resolveSettings_error_nonclient (client : DiskAdminClient) (uid : String)
    (r : ResourceShort) (e : PyError)
    (hp : client.get_public_settings_by_path uid r.path = .error e)
    (hc : e.isDiskClientError = false) :
    resolveSettings client uid r = .error e := by
  simp [resolveSettings, hp, hc]

theorem resolveSettings_error_client_no_hash (client : DiskAdminClient) (uid : String)
    (r : ResourceShort) (e : PyError)
    (hp : client.get_public_settings_by_path uid r.path = .error e)
    (hc : e.isDiskClientError = true)
    (hh : pyTruthy r.public_hash = false) :
    resolveSettings client uid r = .ok none := by
  simp [resolveSettings, hp, hc, hh]

theorem resolveSettings_error_client_hash (client : DiskAdminClient) (uid : String)
    (r : ResourceShort) (e : PyError)
    (hp : client.get_public_settings_by_path uid r.path = .error e)
    (hc : e.isDiskClientError = true)
    (hh : pyTruthy r.public_hash = true) :
    resolveSettings client uid r =
      (match client.get_public_settings_by_key (r.public_hash.getD "") with
        | .ok res => .ok (some res)
        | .error e2 => .error e2) := by
  simp [resolveSettings, hp, hc, hh]

theorem processResource_of_skip (client : DiskAdminClient) (users_lookup : Dict)
    (uid ue : String) (r : ResourceShort) (w : List CsvRow)
    (h : resolveSettings client uid r = .ok none) :
    processResource client users_lookup uid ue r w = (w, none) := by
  simp [processResource, h]

theorem processResource_of_error_client (client : DiskAdminClient) (users_lookup : Dict)
    (uid ue : String) (r : ResourceShort) (w : List CsvRow) (e : PyError)
    (h : resolveSettings client uid r = .error e)
    (hc : e.isDiskClientError = true) :
    processResource client users_lookup uid ue r w = (w, none) := by
  simp [processResource, h, hc]

theorem processResource_of_error_nonclient (client : DiskAdminClient) (users_lookup : Dict)
    (uid ue : String) (r : ResourceShort) (w : List CsvRow) (e : PyError)
    (h : resolveSettings client uid r = .error e)
    (hc : e.isDiskClientError = false) :
    processResource client users_lookup uid ue r w = (w, some e) := by
  simp [processResource, h, hc]

theorem processResources_cons (client : DiskAdminClient) (users_lookup : Dict)
    (uid ue : String) (r : ResourceShort) (rest : List ResourceShort) (w : List CsvRow) :
    processResources client users_lookup uid ue (r :: rest) w =
      (match processResource client users_lookup uid ue r w with
        | (w2, none) => processResources client users_lookup uid ue rest w2
        | (w2, some e) => (w2, some e)) := rfl

theorem processResources_cons_of_skip (client : DiskAdminClient) (users_lookup : Dict)
    (uid ue : String) (r : ResourceShort) (rest : List ResourceShort) (w : List CsvRow)
    (h : processResource client users_lookup uid ue r w = (w, none)) :
    processResources client users_lookup uid ue (r :: rest) w =
      processResources client users_lookup uid ue rest w := by
  rw [processResources_cons, h]

theorem dictGet_absent (d : Dict) (k dflt : String) (h : k ∉ dictKeys d) :
    dictGet d k dflt = dflt := by
  induction d with
  | nil => rfl
  | cons kv rest ih =>
    obtain ⟨k0, v0⟩ := kv
    simp only [dictKeys, List.map_cons, List.mem_cons, not_or] at h
    rw [dictGet, if_neg (fun hk => h.1 hk.symm)]
    exact ih (by simpa [dictKeys] using h.2)

theorem byEmailLoop_cons (client : DiskAdminClient) (users_lookup email_to_id : Dict)
    (email : String) (rest : List String) (w : List CsvRow) (p nf : Nat) :
    byEmailLoop client users_lookup email_to_id (email :: rest) w p nf =
      (let uidOpt := dictGetOpt email_to_id email
       if pyTruthy uidOpt then
        let user_id := uidOpt.getD ""
        if user_id.take 3 == USER_ID_PREFIX_FILTER &&
            user_id.length == VALID_USER_ID_LENGTH then
          match get_user_shared_resources client users_lookup user_id email w with
          | (w2, none) =>
            byEmailLoop client users_lookup email_to_id rest w2 (p + 1) nf
          | (w2, some _) => byEmailLoop client users_lookup email_to_id rest w2 p nf
        else
          byEmailLoop client users_lookup email_to_id rest w p nf
       else
        byEmailLoop client users_lookup email_to_id rest w p (nf + 1)) := rfl

/-! ### Claims -/

/-- C5: for every `UserGrant` ACL entry whose access-type label equals
"owner", the normalizer emits no record and the grant loop leaves the report
unchanged for that entry, for every subject email, resource path, identity
index, rights list, organization identifier and writer state. -/
theorem claim_C5 (users_lookup : Dict) (user_email resource_path user_id : String)
    (rights : List String) (org_id : Option String) (rest : List PublicAccess)
    (w : List CsvRow) :
    normalizeAccess users_lookup user_email resource_path
        (.userAccess user_id "owner" rights org_id) = .ok none ∧
    writeAccesses users_lookup user_email resource_path
        (.userAccess user_id "owner" rights org_id :: rest) w =
      writeAccesses users_lookup user_email resource_path rest w :=
  ⟨rfl, rfl⟩

/-- C6: for every non-owner `UserGrant` that yields a record, the record's
external-grantee flag is false exactly when the grant carries an organization
identifier (a truthy `org_id`): presence implies flag false, absence implies
flag true. -/
theorem claim_C6 (users_lookup : Dict) (ue rp user_id access_type : String)
    (rights : List String) (org_id : Option String) (row : CsvRow)
    (h : normalizeAccess users_lookup ue rp
        (.userAccess user_id access_type rights org_id) = .ok (some row)) :
    (row.external_user = false ↔ pyTruthy org_id = true) := by
  simp only [normalizeAccess] at h
  by_cases ho : access_type = "owner"
  · rw [if_pos ho] at h
    simp at h
  · rw [if_neg ho] at h
    cases rights with
    | nil => simp [pyGetItem0] at h
    | cons r0 rs =>
      simp only [pyGetItem0, Except.ok.injEq, Option.some.injEq] at h
      subst h
      cases hb : pyTruthy org_id <;> simp [process_access, hb]

/-- C6 witness: a concrete non-owner `UserGrant` with a present organization
identifier yields a record whose external flag is false. -/
theorem claim_C6_witness :
    ((process_access "a@example.com" "/disk/shared" "read-write" "write" "u1" ""
        false).external_user = false ↔ pyTruthy (some "org1") = true) :=
  claim_C6 [] "a@example.com" "/disk/shared" "u1" "read-write" ["write"]
    (some "org1") _ rfl

/-- C7: for every `MacroGrant` ACL entry (with its lists non-empty so a record
is emitted), the record has access-type equal to the first macro label, right
level equal to the first right level, empty grantee identifier, empty grantee
email and external flag false. -/
theorem claim_C7 (users_lookup : Dict) (ue rp m r0 : String) (ms rs : List String) :
    normalizeAccess users_lookup ue rp (.macroAccess (m :: ms) (r0 :: rs)) =
      .ok (some (CsvRow.mk ue rp m r0 "" "" false)) := rfl

/-- C8: identity resolution over the identity index is idempotent and total:
resolving the same identifier twice against the same index yields the same
email (`resolveEmail` is a pure total function into `String`, so it never
raises), and resolving an identifier absent from the index yields the empty
string. -/
theorem claim_C8 :
    (∀ (index : Dict) (internalId : String),
      resolveEmail index internalId = resolveEmail index internalId) ∧
    (∀ (index : Dict) (internalId : String),
      internalId ∉ dictKeys index → resolveEmail index internalId = "") :=
  ⟨fun _ _ => rfl, fun index internalId h => dictGet_absent index internalId "" h⟩

/-- C8 witness: an identifier absent from a concrete index resolves to the
empty string. -/
theorem claim_C8_witness :
    resolveEmail [("1130000000000001", "a@example.com")] "1130000000000009" = "" :=
  claim_C8.2 [("1130000000000001", "a@example.com")] "1130000000000009" (by decide)

/-- C4: the driver's return value equals the number of subjects that
completed processing without an uncaught error at the driver level:
`subjectCounted` holds exactly for subjects that pass the eligibility check
and whose fetch lets no error escape, so ineligible subjects and subjects
that raised never contribute; and a subject whose only resource fails with a
`DiskClientError` on both the primary and the fallback lookup still counts as
processed, with zero rows emitted. -/
theorem claim_C4 :
    (∀ (client : DiskAdminClient) (users_list : List UserRow),
      (disk_resources_main client users_list).2 =
        users_list.countP (subjectCounted client (buildUsersLookup users_list))) ∧
    disk_resources_main bothLookupsFailClient [eligibleUser] = ([], 1) := by
  constructor
  · intro client users_list
    unfold disk_resources_main
    rw [mainLoop_eq]
    simp
  · rfl

/-- C9: the report rows are ordered: the whole run's rows are the
concatenation, in input-list order, of each eligible subject's rows
(`runRows`); a subject's rows are the concatenation, in collaborator
enumeration order, of its per-resource rows (`subjectRows`); and a resource
whose settings resolve emits `grantRows`, which walks the grants in the order
the collaborator returned them. -/
theorem claim_C9 :
    (∀ (client : DiskAdminClient) (users_list : List UserRow),
      (disk_resources_main client users_list).1 =
        runRows client (buildUsersLookup users_list) users_list) ∧
    (∀ (client : DiskAdminClient) (users_lookup : Dict) (uid ue : String)
        (rs : List ResourceShort) (w : List CsvRow),
      (processResources client users_lookup uid ue rs w).1 =
        w ++ subjectRows client users_lookup uid ue rs) ∧
    (∀ (client : DiskAdminClient) (users_lookup : Dict) (uid ue : String)
        (r : ResourceShort) (res : PublicSettings),
      resolveSettings client uid r = .ok (some res) →
      resourceRows client users_lookup uid ue r =
        grantRows users_lookup ue r.path res.public_accesses) := by
  refine ⟨?_, ?_, ?_⟩
  · intro client users_list
    unfold disk_resources_main
    rw [mainLoop_eq]
    simp
  · intro client users_lookup uid ue rs w
    rw [processResources_eq]
  · intro client users_lookup uid ue r res h
    simp [resourceRows, h]

/-- C9 witness: a concrete resolved resource emits exactly its grant-order
rows. -/
theorem claim_C9_witness :
    resourceRows macroGrantClient [] eligibleUser.ID eligibleUser.Email hashedResource =
      grantRows [] eligibleUser.Email hashedResource.path
        [.macroAccess ["organization"] ["read"]] :=
  claim_C9.2.2 macroGrantClient [] eligibleUser.ID eligibleUser.Email hashedResource
    (PublicSettings.mk [.macroAccess ["organization"] ["read"]]) rfl

/-- C2: only the `DiskClientError` category (the spec's lookup-error
category) from the primary settings lookup triggers the fallback: a primary
failure with any other category makes `resolveSettings` return that very
error with the fallback never consulted, the per-resource handler does not
catch it, so it escapes to the driver, where the subject is not counted and
the loop continues with the remaining subjects. -/
theorem claim_C2 :
    (∀ (client : DiskAdminClient) (uid : String) (r : ResourceShort) (e : PyError),
      client.get_public_settings_by_path uid r.path = .error e →
      e.isDiskClientError = false →
      resolveSettings client uid r = .error e) ∧
    (∀ (client : DiskAdminClient) (users_lookup : Dict) (uid ue : String)
        (r : ResourceShort) (w : List CsvRow) (e : PyError),
      client.get_public_settings_by_path uid r.path = .error e →
      e.isDiskClientError = false →
      processResource client users_lookup uid ue r w = (w, some e)) ∧
    (∀ (client : DiskAdminClient) (users_lookup : Dict) (u : UserRow)
        (rest : List UserRow) (w w2 : List CsvRow) (p : Nat) (e : PyError),
      (u.ID.take 3 == USER_ID_PREFIX_FILTER) = true →
      get_user_shared_resources client users_lookup u.ID u.Email w = (w2, some e) →
      mainLoop client users_lookup (u :: rest) w p =
        mainLoop client users_lookup rest w2 p) := by
  refine ⟨?_, ?_, ?_⟩
  · intro client uid r e hp hc
    exact resolveSettings_error_nonclient client uid r e hp hc
  · intro client users_lookup uid ue r w e hp hc
    exact processResource_of_error_nonclient client users_lookup uid ue r w e
      (resolveSettings_error_nonclient client uid r e hp hc) hc
  · intro client users_lookup u rest w w2 p e hpre hf
    rw [mainLoop_cons, if_pos hpre, hf]

/-- C2 witness: a transport-level (non-client) primary failure at a concrete
client propagates unchanged through the resource level, and the failed
subject leaves the processed count at the value the rest of the loop gives. -/
theorem claim_C2_witness :
    resolveSettings transportFailClient eligibleUser.ID hashedResource =
      .error transportError ∧
    processResource transportFailClient [] eligibleUser.ID eligibleUser.Email
      hashedResource [] = ([], some transportError) ∧
    mainLoop transportFailClient [] [eligibleUser] [] 0 =
      mainLoop transportFailClient [] [] [] 0 :=
  ⟨claim_C2.1 transportFailClient eligibleUser.ID hashedResource transportError rfl rfl,
    claim_C2.2.1 transportFailClient [] eligibleUser.ID eligibleUser.Email
      hashedResource [] transportError rfl rfl,
    claim_C2.2.2 transportFailClient [] eligibleUser [] [] [] 0 transportError
      (by decide) rfl⟩

/-- C3: on a primary-lookup `DiskClientError`, the fallback by public hash is
used only when the resource carries a truthy hash; with no hash the resource
is skipped with no record and the remaining resources are still processed;
with a hash the fallback lookup is consulted, and if it also fails with a
`DiskClientError` the resource is skipped and the remaining resources are
still processed. -/
theorem claim_C3 :
    (∀ (client : DiskAdminClient) (users_lookup : Dict) (uid ue : String)
        (r : ResourceShort) (rest : List ResourceShort) (w : List CsvRow) (e : PyError),
      client.get_public_settings_by_path uid r.path = .error e →
      e.isDiskClientError = true →
      pyTruthy r.public_hash = false →
      processResource client users_lookup uid ue r w = (w, none) ∧
      processResources client users_lookup uid ue (r :: rest) w =
        processResources client users_lookup uid ue rest w) ∧
    (∀ (client : DiskAdminClient) (uid : String) (r : ResourceShort) (e : PyError),
      client.get_public_settings_by_path uid r.path = .error e →
      e.isDiskClientError = true →
      pyTruthy r.public_hash = true →
      resolveSettings client uid r =
        (match client.get_public_settings_by_key (r.public_hash.getD "") with
          | .ok res => .ok (some res)
          | .error e2 => .error e2)) ∧
    (∀ (client : DiskAdminClient) (users_lookup : Dict) (uid ue : String)
        (r : ResourceShort) (rest : List ResourceShort) (w : List CsvRow) (e e2 : PyError),
      client.get_public_settings_by_path uid r.path = .error e →
      e.isDiskClientError = true →
      pyTruthy r.public_hash = true →
      client.get_public_settings_by_key (r.public_hash.getD "") = .error e2 →
      e2.isDiskClientError = true →
      processResource client users_lookup uid ue r w = (w, none) ∧
      processResources client users_lookup uid ue (r :: rest) w =
        processResources client users_lookup uid ue rest w) := by
  refine ⟨?_, ?_, ?_⟩
  · intro client users_lookup uid ue r rest w e hp hc hh
    have hskip : processResource client users_lookup uid ue r w = (w, none) :=
      processResource_of_skip client users_lookup uid ue r w
        (resolveSettings_error_client_no_hash client uid r e hp hc hh)
    exact ⟨hskip,
      processResources_cons_of_skip client users_lookup uid ue r rest w hskip⟩
  · intro client uid r e hp hc hh
    exact resolveSettings_error_client_hash client uid r e hp hc hh
  · intro client users_lookup uid ue r rest w e e2 hp hc hh hk hc2
    have hr : resolveSettings client uid r = .error e2 := by
      simp [resolveSettings_error_client_hash client uid r e hp hc hh, hk]
    have hskip : processResource client users_lookup uid ue r w = (w, none) :=
      processResource_of_error_client client users_lookup uid ue r w e2 hr hc2
    exact ⟨hskip,
      processResources_cons_of_skip client users_lookup uid ue r rest w hskip⟩

/-- C3 witness: at concrete clients a hashless resource whose primary lookup
fails is skipped with its successor still processed, a hashed resource's
fallback is exactly the lookup by hash, and a hashed resource whose fallback
also fails is skipped with the loop continuing. -/
theorem claim_C3_witness :
    (processResource noHashFailClient [] eligibleUser.ID eligibleUser.Email
        unhashedResource [] = ([], none) ∧
      processResources noHashFailClient [] eligibleUser.ID eligibleUser.Email
          [unhashedResource, hashedResource] [] =
        processResources noHashFailClient [] eligibleUser.ID eligibleUser.Email
          [hashedResource] []) ∧
    resolveSettings bothLookupsFailClient eligibleUser.ID hashedResource =
      (match bothLookupsFailClient.get_public_settings_by_key
          (hashedResource.public_hash.getD "") with
        | .ok res => .ok (some res)
        | .error e2 => .error e2) ∧
    (processResource bothLookupsFailClient [] eligibleUser.ID eligibleUser.Email
        hashedResource [] = ([], none) ∧
      processResources bothLookupsFailClient [] eligibleUser.ID eligibleUser.Email
          [hashedResource] [] =
        processResources bothLookupsFailClient [] eligibleUser.ID eligibleUser.Email
          [] []) :=
  ⟨claim_C3.1 noHashFailClient [] eligibleUser.ID eligibleUser.Email
      unhashedResource [hashedResource] [] lookupNotFound rfl rfl rfl,
    claim_C3.2.1 bothLookupsFailClient eligibleUser.ID hashedResource
      lookupNotFound rfl rfl rfl,
    claim_C3.2.2 bothLookupsFailClient [] eligibleUser.ID eligibleUser.Email
      hashedResource [] [] lookupNotFound lookupNotFound rfl rfl rfl rfl rfl⟩

/-- C1 counterexample: in `disk_resources.py` the driver checks only the
prefix, not the length.  A subject whose id is the 3-character string "113"
(correct prefix class, wrong length) passed to the driver gets its resources
fetched, a record written and the processed count incremented — the claim
says such a subject is skipped with no record written. -/
theorem claim_C1_counterexample :
    shortIdUser.ID.take 3 = USER_ID_PREFIX_FILTER ∧
    shortIdUser.ID.length ≠ VALID_USER_ID_LENGTH ∧
    disk_resources_main macroGrantClient [shortIdUser] =
      ([CsvRow.mk "short@example.com" "/disk/shared" "organization" "read" "" "" false],
        1) :=
  ⟨rfl, by decide, rfl⟩

/-- C1 amended: the by-email driver fetches a resolved subject only if its id
passes both the prefix-113 and the length-16 check, skipping it otherwise
with rows and both counters unchanged; the ID-list driver checks only the
prefix, skipping wrong-prefix subjects with rows and count unchanged, while
its length-16 filter is applied earlier, in `read_users_csv`, when the input
file is loaded — so every row surviving the loader has a 16-character id, but
a prefix-matching id of a different length handed directly to the driver is
still fetched. -/
theorem claim_C1_amended :
    (∀ (client : DiskAdminClient) (users_lookup email_to_id : Dict) (email : String)
        (rest : List String) (w : List CsvRow) (p nf : Nat),
      pyTruthy (dictGetOpt email_to_id email) = true →
      (((dictGetOpt email_to_id email).getD "").take 3 == USER_ID_PREFIX_FILTER &&
        ((dictGetOpt email_to_id email).getD "").length == VALID_USER_ID_LENGTH) = false →
      byEmailLoop client users_lookup email_to_id (email :: rest) w p nf =
        byEmailLoop client users_lookup email_to_id rest w p nf) ∧
    (∀ (client : DiskAdminClient) (users_lookup : Dict) (u : UserRow)
        (rest : List UserRow) (w : List CsvRow) (p : Nat),
      (u.ID.take 3 == USER_ID_PREFIX_FILTER) = false →
      mainLoop client users_lookup (u :: rest) w p =
        mainLoop client users_lookup rest w p) ∧
    (∀ (rows : List UserRow) (r : UserRow),
      r ∈ read_users_csv rows → r.ID.length = VALID_USER_ID_LENGTH) := by
  refine ⟨?_, ?_, ?_⟩
  · intro client users_lookup email_to_id email rest w p nf h1 h2
    rw [byEmailLoop_cons]
    simp only [h1, if_true, h2, Bool.false_eq_true, if_false]
  · intro client users_lookup u rest w p hpre
    rw [mainLoop_cons]
    simp [hpre]
  · intro rows r hr
    simp only [read_users_csv, List.mem_filter, Bool.and_eq_true, beq_iff_eq] at hr
    exact hr.2.2

/-- C1 witness: a subject resolving to an id with the wrong prefix is skipped
by the by-email driver; a wrong-prefix subject is skipped by the ID-list
driver; a 16-character row survives the loader with its full length. -/
theorem claim_C1_witness :
    byEmailLoop macroGrantClient [] [("x@example.com", "9990000000000001")]
        ["x@example.com"] [] 0 0 =
      byEmailLoop macroGrantClient [] [("x@example.com", "9990000000000001")]
        [] [] 0 0 ∧
    mainLoop macroGrantClient [] [UserRow.mk "9990000000000001" "x@example.com"] [] 0 =
      mainLoop macroGrantClient [] [] [] 0 ∧
    (UserRow.mk "1130000000000001" "a@example.com").ID.length = VALID_USER_ID_LENGTH :=
  ⟨claim_C1_amended.1 macroGrantClient [] [("x@example.com", "9990000000000001")]
      "x@example.com" [] [] 0 0 (by decide) (by decide),
    claim_C1_amended.2.1 macroGrantClient []
      (UserRow.mk "9990000000000001" "x@example.com") [] [] 0 (by decide),
    claim_C1_amended.2.2 [UserRow.mk "1130000000000001" "a@example.com"]
      (UserRow.mk "1130000000000001" "a@example.com") (by decide)⟩

/-- C10: a well-formed grant (non-empty macro and right lists for a
`MacroGrant`, a non-empty right list for a non-owner `UserGrant`) never makes
the normalizer raise; a grant with an empty rights list raises an
`IndexError`, which is not a `DiskClientError`, is not caught at the resource
level, escapes the fetcher, and makes the driver mark the whole subject
failed — the run continuing with the next subject, which is still counted. -/
theorem claim_C10 :
    (∀ (users_lookup : Dict) (ue rp : String) (a : PublicAccess),
      grantWellFormed a = true →
      exceptIsOk (normalizeAccess users_lookup ue rp a) = true) ∧
    normalizeAccess [] "a@example.com" "/disk/shared" emptyRightsGrant =
      .error (.indexError "list index out of range") ∧
    (PyError.indexError "list index out of range").isDiskClientError = false ∧
    get_user_shared_resources emptyRightsClient [] eligibleUser.ID eligibleUser.Email
      [] = ([], some (.indexError "list index out of range")) ∧
    disk_resources_main emptyRightsClient [eligibleUser, eligibleUser2] = ([], 1) := by
  refine ⟨?_, rfl, rfl, rfl, rfl⟩
  intro users_lookup ue rp a hwf
  cases a with
  | macroAccess macros rights =>
    cases macros with
    | nil => simp [grantWellFormed] at hwf
    | cons m ms =>
      cases rights with
      | nil => simp [grantWellFormed] at hwf
      | cons r0 rs => rfl
  | userAccess uid atype rights orgId =>
    by_cases ho : atype = "owner"
    · simp [normalizeAccess, ho, exceptIsOk]
    · cases rights with
      | nil =>
        simp [grantWellFormed, ho] at hwf
      | cons r0 rs =>
        simp [normalizeAccess, ho, pyGetItem0, exceptIsOk]

/-- C10 witness: a concrete well-formed macro grant is normalized without
raising. -/
theorem claim_C10_witness :
    exceptIsOk (normalizeAccess [] "a@example.com" "/disk/shared"
      (.macroAccess ["organization"] ["read"])) = true :=
  claim_C10.1 [] "a@example.com" "/disk/shared"
    (.macroAccess ["organization"] ["read"]) (by decide)

end DiskSharedResources
